import Mathlib

/-!
# Static page server (`main.go`)

A shallow embedding of `main.go`: the two handlers `aboutPage` and
`contactPage`, the three `http.HandleFunc` registrations of `main`, and the
`ListenAndServe` / `log.Fatal` tail of `main`.

The program is written against Go's `net/http`.  The parts of that library the
program calls are modelled here, each in its own definition:

* `ServeMux` with `Handle`, `match`, `handler`: the default multiplexer.  A
  pattern that ends in a slash names a subtree, every other pattern names one
  path; the lookup takes an exact match first and otherwise the longest
  registered subtree pattern that is a prefix of the path.
* `ServeFile`: the file-serving primitive, at the level the specification
  describes it: the bytes of the named file with status 200, or the library's
  error reply.
* `ListenAndServe`: a parameter of `main`.

State is passed explicitly: a `World` holds the filesystem and the default
multiplexer, and a handler returns the response, the world it leaves behind and
the list of files it opened.
-/

namespace StaticServer

/-! ## Requests, responses, filesystem -/

/-- An HTTP request as the handlers see it: method, `Host`, `URL.Path`, headers
and body. -/
structure Request where
  method : String
  host : String
  path : String
  header : List (String × String)
  body : String
  deriving DecidableEq, Repr

/-- An HTTP response: status code and body bytes. -/
structure Response where
  status : Nat
  body : String
  deriving DecidableEq, Repr

/-- What opening a file of the working directory for reading gives: its bytes,
or one of the error classes `net/http` tells apart. -/
inductive OpenResult where
  | ok (bytes : String)
  | notExist
  | permission
  | failed
  deriving DecidableEq, Repr

/-- A filesystem state: what opening each file name gives. -/
abbrev FS := String → OpenResult

/-! ## The multiplexer -/

/-- The handlers a route can point to: the two functions of `main.go`, and the
library's `NotFoundHandler`. -/
inductive Handler where
  | aboutPage
  | contactPage
  | NotFound
  deriving DecidableEq, Repr

/-- An entry of the multiplexer: a handler and the pattern it is registered
under. -/
structure muxEntry where
  h : Handler
  pattern : String
  deriving DecidableEq, Repr

/-- Go's `ServeMux`: `m` is the map from pattern to entry (latest binding
first), `es` the entries whose pattern ends in a slash, longest pattern first,
`hosts` whether some pattern does not begin with a slash. -/
structure ServeMux where
  m : List (String × muxEntry)
  es : List muxEntry
  hosts : Bool
  deriving DecidableEq, Repr

/-- The multiplexer before any registration (`http.DefaultServeMux` at program
start). -/
def DefaultServeMux : ServeMux := ⟨[], [], false⟩

/-- Go's `strings.HasPrefix`. -/
def HasPrefix (s pre : String) : Bool := pre.data.isPrefixOf s.data

/-- Go's `len` on a string: the number of bytes. -/
def len (s : String) : Nat := s.utf8ByteSize

/-- Map lookup `mux.m[path]`. -/
def ServeMux.lookup (mux : ServeMux) (path : String) : Option muxEntry :=
  (mux.m.find? fun kv => kv.1 == path).map Prod.snd

/-- Go's `appendSorted`: insert `e` before the first entry whose pattern is
shorter, so that `es` stays sorted from longest to shortest. -/
def appendSorted : List muxEntry → muxEntry → List muxEntry
  | [], e => [e]
  | x :: xs, e => if len x.pattern < len e.pattern then e :: x :: xs else x :: appendSorted xs e

/-- Go's `(*ServeMux).Handle`: it panics (here: `Except.error`) on an empty
pattern and on a pattern that is already registered; otherwise it binds the
pattern, and records it among the subtree patterns when it ends in a slash. -/
def ServeMux.Handle (mux : ServeMux) (pattern : String) (handler : Handler) :
    Except String ServeMux :=
  if pattern = "" then .error "http: invalid pattern"
  else if (mux.lookup pattern).isSome then
    .error ("http: multiple registrations for " ++ pattern)
  else
    let e : muxEntry := ⟨handler, pattern⟩
    .ok { m := (pattern, e) :: mux.m
          es := if pattern.data.getLast? = some '/' then appendSorted mux.es e else mux.es
          hosts := mux.hosts || (pattern.data.head? != some '/') }

/-- Go's `http.HandleFunc`: registration on the default multiplexer, which is
passed and returned explicitly. -/
def HandleFunc (mux : ServeMux) (pattern : String) (handler : Handler) :
    Except String ServeMux :=
  mux.Handle pattern handler

/-- Go's `(*ServeMux).match`: an exact match first, otherwise the first (hence
longest) subtree pattern that is a prefix of the path. -/
def ServeMux.match (mux : ServeMux) (path : String) : Option muxEntry :=
  match mux.lookup path with
  | some v => some v
  | none => mux.es.find? fun e => HasPrefix path e.pattern

/-- Go's `(*ServeMux).handler`: a host-specific pattern takes precedence over a
generic one, and a path nothing matches gets `NotFoundHandler` with the empty
pattern. -/
def ServeMux.handler (mux : ServeMux) (host path : String) : Handler × String :=
  let byHost := if mux.hosts then mux.match (host ++ path) else none
  match byHost with
  | some e => (e.h, e.pattern)
  | none =>
    match mux.match path with
    | some e => (e.h, e.pattern)
    | none => (Handler.NotFound, "")

/-! ## State and the file-serving primitive -/

/-- The state a request is handled in: the filesystem and the default
multiplexer (the route table). -/
structure World where
  fs : FS
  mux : ServeMux

/-- What handling a request produces: the response, the state afterwards, and
the names of the files that were opened. -/
structure Outcome where
  resp : Response
  world : World
  reads : List String

/-- Go's `toHTTPError` followed by `http.Error`: the reply for a file that could
not be opened. -/
def toHTTPError : OpenResult → Response
  | .notExist => ⟨404, "404 page not found\n"⟩
  | .permission => ⟨403, "403 Forbidden\n"⟩
  | _ => ⟨500, "500 Internal Server Error\n"⟩

/-- Modelled from the spec: `http.ServeFile` of Go's `net/http`, which `main.go`
calls and does not define.  It opens the named file and replies with status 200
and the file's bytes when the file exists and is readable, and with the
library's error reply otherwise (404 for a missing file, 403 for a permission
error).  It writes nothing.  What the library makes of the request itself is
outside this model: conditional and range headers, `HEAD`, the error reply to a
malformed request, the redirect of a path ending in `/index.html` and the
rejection of a path holding a dot-dot element.  A statement on the reply
therefore speaks of a request that has none of these. -/
def ServeFile (w : World) (_r : Request) (name : String) : Outcome :=
  match w.fs name with
  | .ok bytes => ⟨⟨200, bytes⟩, w, [name]⟩
  | err => ⟨toHTTPError err, w, [name]⟩

/-- Go's `NotFoundHandler`: replies 404 and touches nothing. -/
def NotFound (w : World) (_r : Request) : Outcome :=
  ⟨⟨404, "404 page not found\n"⟩, w, []⟩

/-! ## `main.go` -/

/-- The handler `aboutPage` serves the About HTML page. -/
def aboutPage (w : World) (r : Request) : Outcome :=
  ServeFile w r "static/about.html"

/-- The handler `contactPage` serves the Contact HTML page. -/
def contactPage (w : World) (r : Request) : Outcome :=
  ServeFile w r "static/contact.html"

/-- Calling a registered handler: `h.ServeHTTP(w, r)`. -/
def Handler.ServeHTTP : Handler → World → Request → Outcome
  | .aboutPage => StaticServer.aboutPage
  | .contactPage => StaticServer.contactPage
  | .NotFound => StaticServer.NotFound

/-- Go's `(*ServeMux).ServeHTTP` on the default multiplexer: look the handler up
by host and path and call it.  The path is the one that reaches the lookup, that
is, a path in canonical form: the library's redirect of a path that is not in
canonical form to its canonical form happens before the lookup and is not
modelled. -/
def ServeHTTP (w : World) (r : Request) : Outcome :=
  (w.mux.handler r.host r.path).1.ServeHTTP w r

/-- A server handling a sequence of requests one after the other: the
responses, and the state at the end. -/
def serveAll (w : World) : List Request → List Response × World
  | [] => ([], w)
  | r :: rs =>
    let o := ServeHTTP w r
    let rest := serveAll o.world rs
    (o.resp :: rest.1, rest.2)

/-- What a call of `http.ListenAndServe` does: it serves and never returns, or
it returns an error value (`none` is Go's `nil`). -/
inductive ListenResult where
  | serving
  | returned (err : Option String)
  deriving DecidableEq, Repr

/-- How a run of `main` stands: serving requests, exited with a code, or
stopped by a panic. -/
inductive Status where
  | serving
  | exited (code : Nat)
  | panicked (msg : String)
  deriving DecidableEq, Repr

/-- A run of `main`: the route table it built, the addresses it called
`ListenAndServe` on, what it logged, and how it stands. -/
structure Run where
  mux : ServeMux
  listens : List String
  logged : List String
  status : Status
  deriving DecidableEq, Repr

/-- The function `main`, with the behaviour of `http.ListenAndServe` on an
address as a parameter.  The three `http.HandleFunc` calls act on the default
multiplexer in source order, and a panic in one of them stops the program
before it listens.  A non-nil error from `ListenAndServe` goes to `log.Fatal`,
which logs it and exits with code 1; a nil error falls through to the end of
`main`, which is exit code 0. -/
def main (ListenAndServe : String → ListenResult) : Run :=
  -- Serve About and Contact pages
  match HandleFunc DefaultServeMux "/about" Handler.aboutPage with
  | .error msg => ⟨DefaultServeMux, [], [], .panicked msg⟩
  | .ok mux1 =>
    match HandleFunc mux1 "/contact" Handler.contactPage with
    | .error msg => ⟨mux1, [], [], .panicked msg⟩
    | .ok mux2 =>
      -- Default route redirects to /about
      match HandleFunc mux2 "/" Handler.aboutPage with
      | .error msg => ⟨mux2, [], [], .panicked msg⟩
      | .ok mux =>
        match ListenAndServe "0.0.0.0:8080" with
        | .serving => ⟨mux, ["0.0.0.0:8080"], [], .serving⟩
        | .returned (some err) => ⟨mux, ["0.0.0.0:8080"], [err], .exited 1⟩
        | .returned none => ⟨mux, ["0.0.0.0:8080"], [], .exited 0⟩

/-- The route table after the three registrations of `main`. -/
def routes : ServeMux :=
  { m := [("/", ⟨Handler.aboutPage, "/"⟩), ("/contact", ⟨Handler.contactPage, "/contact"⟩),
          ("/about", ⟨Handler.aboutPage, "/about"⟩)]
    es := [⟨Handler.aboutPage, "/"⟩]
    hosts := false }

/-- The state the server starts serving in: a filesystem, and the route table
`main` has registered. -/
def serverWorld (ListenAndServe : String → ListenResult) (fs : FS) : World :=
  ⟨fs, (main ListenAndServe).mux⟩

/-- A `GET` request for a path, without headers or body. -/
def getRequest (path : String) : Request :=
  ⟨"GET", "localhost:8080", path, [], ""⟩

/-- A `POST` request for a path, with a header and a body. -/
def postRequest (path : String) : Request :=
  ⟨"POST", "example.org", path, [("Content-Type", "text/plain")], "hello"⟩

/-- A filesystem that holds `static/about.html` with the bytes
`<html>About</html>` and no other file. -/
def aboutOnly : FS := fun name =>
  if name = "static/about.html" then .ok "<html>About</html>" else .notExist

/-- A filesystem without any file. -/
def noFiles : FS := fun _ => .notExist

/-- A listener that serves and never returns. -/
def listenOk : String → ListenResult := fun _ => .serving

/-- A listener that fails to start because the port is already bound. -/
def portInUse : String → ListenResult := fun _ =>
  .returned (some "listen tcp 0.0.0.0:8080: bind: address already in use")

/-! ## Lemmas on the route table -/

/-- The run of `main` by what `ListenAndServe` does: the three registrations
succeed and give `routes`. -/
theorem main_eq (L : String → ListenResult) :
    main L = ⟨routes, ["0.0.0.0:8080"],
      (match L "0.0.0.0:8080" with
        | .returned (some err) => [err]
        | _ => []),
      (match L "0.0.0.0:8080" with
        | .serving => .serving
        | .returned (some _) => .exited 1
        | .returned none => .exited 0)⟩ := by
  unfold main
  cases L "0.0.0.0:8080" with
  | serving => rfl
  | returned err => cases err <;> rfl

theorem main_mux (L : String → ListenResult) : (main L).mux = routes := by
  rw [main_eq]

theorem hasPrefix_slash (path : String) :
    HasPrefix path "/" = decide (path.data.head? = some '/') := by
  unfold HasPrefix
  cases h : path.data with
  | nil => simp
  | cons c cs =>
    by_cases hc : c = '/'
    · subst hc; simp [List.isPrefixOf]
    · have : ('/' == c) = false := by simpa using fun h => hc h.symm
      simp [List.isPrefixOf, this, hc]

theorem routes_handler (host path : String) :
    routes.handler host path =
      if path = "/" then (Handler.aboutPage, "/")
      else if path = "/contact" then (Handler.contactPage, "/contact")
      else if path = "/about" then (Handler.aboutPage, "/about")
      else if path.data.head? = some '/' then (Handler.aboutPage, "/")
      else (Handler.NotFound, "") := by
  unfold ServeMux.handler ServeMux.match ServeMux.lookup routes
  simp only [Bool.false_eq_true, if_false]
  by_cases h1 : path = "/"
  · subst h1; rfl
  by_cases h2 : path = "/contact"
  · subst h2; rfl
  by_cases h3 : path = "/about"
  · subst h3; rfl
  have e1 : ("/" == path) = false := by simpa using fun h => h1 h.symm
  have e2 : ("/contact" == path) = false := by simpa using fun h => h2 h.symm
  have e3 : ("/about" == path) = false := by simpa using fun h => h3 h.symm
  simp only [List.find?, e1, e2, e3, Option.map, hasPrefix_slash, h1, h2, h3, if_false]
  by_cases h4 : path.data.head? = some '/'
  · simp [h4]
  · simp [h4]

theorem serverWorld_eq (L : String → ListenResult) (fs : FS) :
    serverWorld L fs = ⟨fs, routes⟩ := by
  unfold serverWorld
  rw [main_mux]

theorem ServeFile_world (w : World) (r : Request) (name : String) :
    (ServeFile w r name).world = w := by
  unfold ServeFile
  cases w.fs name <;> rfl

theorem ServeFile_reads (w : World) (r : Request) (name : String) :
    (ServeFile w r name).reads = [name] := by
  unfold ServeFile
  cases w.fs name <;> rfl

theorem ServeFile_ok (w : World) (r : Request) (name bytes : String)
    (h : w.fs name = .ok bytes) : (ServeFile w r name).resp = ⟨200, bytes⟩ := by
  unfold ServeFile
  rw [h]

theorem ServeFile_status (w : World) (r : Request) (name : String) :
    (ServeFile w r name).resp.status = 200 ∨ (ServeFile w r name).resp.status = 404 ∨
      (ServeFile w r name).resp.status = 403 ∨ (ServeFile w r name).resp.status = 500 := by
  unfold ServeFile
  cases w.fs name <;> simp [toHTTPError]

theorem ServeFile_status_404 (w : World) (r : Request) (name : String) :
    (ServeFile w r name).resp.status = 404 ↔ w.fs name = .notExist := by
  unfold ServeFile
  cases w.fs name <;> simp [toHTTPError]

theorem ServeHTTP_world (w : World) (r : Request) : (ServeHTTP w r).world = w := by
  unfold ServeHTTP
  cases (w.mux.handler r.host r.path).1
  · exact ServeFile_world w r _
  · exact ServeFile_world w r _
  · rfl

theorem serveAll_world (w : World) (rs : List Request) : (serveAll w rs).2 = w := by
  induction rs generalizing w with
  | nil => rfl
  | cons r rs ih =>
    simp only [serveAll]
    rw [ih, ServeHTTP_world]

theorem serveAll_length (w : World) (rs : List Request) :
    (serveAll w rs).1.length = rs.length := by
  induction rs generalizing w with
  | nil => rfl
  | cons r rs ih => simp [serveAll, ih]

/-- A second registration of a pattern is the panic of `Handle`. -/
theorem duplicate_registration_panics :
    HandleFunc routes "/about" Handler.contactPage =
      .error "http: multiple registrations for /about" := rfl

/-- Without the contract of `ListenAndServe`, a nil error would take `main` to
its end, exit code 0. -/
theorem main_nil_error_falls_through :
    (main fun _ => ListenResult.returned none).status = .exited 0 := rfl

/-! ## The claims -/

/-- Claim C1, as stated, fails: on a filesystem that holds `static/about.html`,
a `GET` for `/foo`, which is none of `/`, `/about`, `/contact`, is dispatched to
`aboutPage` through the pattern `/` and answered with status 200 and the bytes
of the About page, not with 404. -/
theorem other_path_not_404 :
    "/foo" ∉ ["/", "/about", "/contact"] ∧
      (main listenOk).mux.handler "localhost:8080" "/foo" = (Handler.aboutPage, "/") ∧
      (ServeHTTP (serverWorld listenOk aboutOnly) (getRequest "/foo")).reads =
        ["static/about.html"] ∧
      (ServeHTTP (serverWorld listenOk aboutOnly) (getRequest "/foo")).resp =
        ⟨200, "<html>About</html>"⟩ ∧
      ¬ (∀ (fs : FS) (path : String), path ∉ ["/", "/about", "/contact"] →
        (ServeHTTP (serverWorld listenOk fs) (getRequest path)).resp.status = 404) :=
  ⟨by decide, by decide, by decide, by decide,
    fun h => absurd (h aboutOnly "/foo" (by decide)) (by decide)⟩

/-- Claim C1, amended: for a request path that is none of `/`, `/about`,
`/contact`, the route table built by `main` does not select the not-found
handler when the path begins with a slash: the catch-all pattern `/` selects the
application handler `aboutPage`, whose body is the `ServeFile` call on
`static/about.html`, so the reply is the one of that call and not the 404 of
the table.  The not-found handler is selected exactly for the paths that do not
begin with a slash, and `contactPage` for none of these paths. -/
theorem other_path_dispatch (L : String → ListenResult) (host path : String)
    (h : path ∉ ["/", "/about", "/contact"]) :
    (path.data.head? = some '/' →
        (main L).mux.handler host path = (Handler.aboutPage, "/") ∧
        ∀ w q, ((main L).mux.handler host path).1.ServeHTTP w q =
          ServeFile w q "static/about.html") ∧
      (((main L).mux.handler host path).1 = Handler.NotFound ↔
        path.data.head? ≠ some '/') ∧
      ((main L).mux.handler host path).1 ≠ Handler.contactPage := by
  simp only [List.mem_cons, List.mem_singleton, List.not_mem_nil, or_false, not_or] at h
  obtain ⟨h1, h2, h3⟩ := h
  have hd : (main L).mux.handler host path =
      if path.data.head? = some '/' then (Handler.aboutPage, "/")
      else (Handler.NotFound, "") := by
    rw [main_mux, routes_handler]; simp only [h1, h2, h3, if_false]
  rw [hd]
  by_cases hs : path.data.head? = some '/'
  · rw [if_pos hs]
    exact ⟨fun _ => ⟨rfl, fun _ _ => rfl⟩,
      ⟨fun hc => absurd hc (by decide), fun hc => absurd hs hc⟩, by decide⟩
  · rw [if_neg hs]
    exact ⟨fun hc => absurd hc hs, ⟨fun _ => hs, fun _ => rfl⟩, by decide⟩

/-- Witness for claim C1 as amended: the path `/foo` is none of the three
registered paths and the route table hands it to `aboutPage` through the
pattern `/`. -/
theorem other_path_dispatch_witness :
    "/foo" ∉ ["/", "/about", "/contact"] ∧
      (main listenOk).mux.handler "localhost:8080" "/foo" = (Handler.aboutPage, "/") ∧
      ((main listenOk).mux.handler "localhost:8080" "/foo").1 ≠ Handler.NotFound :=
  ⟨by decide,
    ((other_path_dispatch listenOk "localhost:8080" "/foo" (by decide)).1 (by decide)).1,
    fun hn => ((other_path_dispatch listenOk "localhost:8080" "/foo" (by decide)).2.1.mp hn)
      (by decide)⟩

/-- Claim C2: on every filesystem, for each of the three registered paths, when
the file mapped to the path (`static/about.html` for `/` and `/about`,
`static/contact.html` for `/contact`) exists and is readable, a `GET` request
for the path is dispatched to the handler that serves that file, and the
response is status 200 with exactly the file's bytes. -/
theorem registered_path_serves_file (L : String → ListenResult) (fs : FS) (r : Request)
    (file bytes : String) (_hm : r.method = "GET")
    (hp : (r.path, file) ∈ [("/", "static/about.html"), ("/about", "static/about.html"),
      ("/contact", "static/contact.html")])
    (hf : fs file = .ok bytes) :
    (∀ w q, ((main L).mux.handler r.host r.path).1.ServeHTTP w q = ServeFile w q file) ∧
      ServeHTTP (serverWorld L fs) r = ServeFile (serverWorld L fs) r file ∧
      (ServeHTTP (serverWorld L fs) r).reads = [file] ∧
      (ServeHTTP (serverWorld L fs) r).resp = ⟨200, bytes⟩ := by
  have sel : ∀ w q, ((main L).mux.handler r.host r.path).1.ServeHTTP w q =
      ServeFile w q file := by
    intro w q
    rw [main_mux]
    simp only [List.mem_cons, List.mem_singleton, List.not_mem_nil, or_false,
      Prod.mk.injEq] at hp
    rcases hp with ⟨h1, h2⟩ | ⟨h1, h2⟩ | ⟨h1, h2⟩ <;>
      · simp only [routes_handler, h1, h2]
        rfl
  have key : ServeHTTP (serverWorld L fs) r = ServeFile (serverWorld L fs) r file := by
    rw [serverWorld_eq]
    unfold ServeHTTP
    simp only [List.mem_cons, List.mem_singleton, List.not_mem_nil, or_false,
      Prod.mk.injEq] at hp
    rcases hp with ⟨h1, h2⟩ | ⟨h1, h2⟩ | ⟨h1, h2⟩ <;>
      · simp only [routes_handler, h1, h2]
        rfl
  refine ⟨sel, key, ?_, ?_⟩
  · rw [key]; exact ServeFile_reads _ _ _
  · rw [key]; exact ServeFile_ok _ _ _ _ hf

/-- Witness for claim C2, the scenario of the specification: with
`static/about.html` holding `<html>About</html>`, `GET /about` gives status 200
and body `<html>About</html>`. -/
theorem registered_path_serves_file_witness :
    aboutOnly "static/about.html" = .ok "<html>About</html>" ∧
      (ServeHTTP (serverWorld listenOk aboutOnly) (getRequest "/about")).resp =
        ⟨200, "<html>About</html>"⟩ :=
  ⟨by decide,
    (registered_path_serves_file listenOk aboutOnly (getRequest "/about") "static/about.html"
      "<html>About</html>" rfl (by decide) (by decide)).2.2.2⟩

/-- Claim C3: on every filesystem, a request sent to `/` gets the same response
(status and body) as the same request sent to `/about`: both are dispatched to
`aboutPage`, which serves `static/about.html` whatever the path; and the
response to `/` is not a redirect: its status is not in the 3xx range. -/
theorem root_same_as_about (L : String → ListenResult) (fs : FS) (r : Request) :
    ((main L).mux.handler r.host "/").1 = Handler.aboutPage ∧
      ((main L).mux.handler r.host "/about").1 = Handler.aboutPage ∧
      (ServeHTTP (serverWorld L fs) { r with path := "/" }).resp =
        (ServeHTTP (serverWorld L fs) { r with path := "/about" }).resp ∧
      ServeHTTP (serverWorld L fs) { r with path := "/" } =
        ServeFile (serverWorld L fs) { r with path := "/" } "static/about.html" ∧
      ¬ (300 ≤ (ServeHTTP (serverWorld L fs) { r with path := "/" }).resp.status ∧
        (ServeHTTP (serverWorld L fs) { r with path := "/" }).resp.status < 400) := by
  have k1 : ServeHTTP (serverWorld L fs) { r with path := "/" } =
      ServeFile (serverWorld L fs) { r with path := "/" } "static/about.html" := by
    rw [serverWorld_eq]
    unfold ServeHTTP
    simp only [routes_handler]
    rfl
  have k2 : ServeHTTP (serverWorld L fs) { r with path := "/about" } =
      ServeFile (serverWorld L fs) { r with path := "/about" } "static/about.html" := by
    rw [serverWorld_eq]
    unfold ServeHTTP
    simp only [routes_handler]
    rfl
  refine ⟨?_, ?_, ?_, k1, ?_⟩
  · rw [main_mux, routes_handler]; rfl
  · rw [main_mux, routes_handler]; rfl
  · rw [k1, k2]; rfl
  · rw [k1]
    rcases ServeFile_status (serverWorld L fs) { r with path := "/" } "static/about.html"
      with h | h | h | h <;> rw [h] <;> decide

/-- Claim C9: the pattern `/` is a catch-all.  For a path that begins with a
slash, the route table built by `main` selects `aboutPage` whenever the path is
not exactly `/contact`, selects `contactPage` if and only if the path is exactly
`/contact`, and never selects the not-found handler; the request is then
answered by serving `static/about.html`, resp. `static/contact.html`. -/
theorem slash_is_catch_all (L : String → ListenResult) (fs : FS) (r : Request)
    (h : r.path.data.head? = some '/') :
    (r.path ≠ "/contact" →
        ((main L).mux.handler r.host r.path).1 = Handler.aboutPage ∧
        ServeHTTP (serverWorld L fs) r = ServeFile (serverWorld L fs) r "static/about.html") ∧
      (((main L).mux.handler r.host r.path).1 = Handler.contactPage ↔ r.path = "/contact") ∧
      (r.path = "/contact" →
        ServeHTTP (serverWorld L fs) r =
          ServeFile (serverWorld L fs) r "static/contact.html") ∧
      ((main L).mux.handler r.host r.path).1 ≠ Handler.NotFound := by
  have hd : ((main L).mux.handler r.host r.path).1 =
      if r.path = "/contact" then Handler.contactPage else Handler.aboutPage := by
    rw [main_mux, routes_handler]
    simp only [h, if_true]
    split_ifs <;> first | rfl | simp_all
  have hS : ServeHTTP (serverWorld L fs) r =
      (if r.path = "/contact" then Handler.contactPage else Handler.aboutPage).ServeHTTP
        (serverWorld L fs) r := by
    rw [← hd, serverWorld_eq, main_mux]
    rfl
  refine ⟨?_, ?_, ?_, ?_⟩
  · intro hc
    rw [hS, hd]
    simp only [hc, if_false]
    exact ⟨trivial, rfl⟩
  · rw [hd]
    by_cases hc : r.path = "/contact" <;> simp [hc]
  · intro hc
    rw [hS]
    simp only [hc, if_true]
    rfl
  · rw [hd]
    split_ifs <;> decide

/-- Witness for claim C9: `/foo` and `/about/` are both handled by
`aboutPage`. -/
theorem slash_is_catch_all_witness :
    ((main listenOk).mux.handler "" "/foo").1 = Handler.aboutPage ∧
      ((main listenOk).mux.handler "" "/about/").1 = Handler.aboutPage :=
  ⟨((slash_is_catch_all listenOk noFiles ⟨"GET", "", "/foo", [], ""⟩ (by decide)).1
      (by decide)).1,
    ((slash_is_catch_all listenOk noFiles ⟨"GET", "", "/about/", [], ""⟩ (by decide)).1
      (by decide)).1⟩

/-- Claim C4: when `http.ListenAndServe` returns an error, `main` logs that
error and the process exits with code 1, after exactly one call of
`ListenAndServe`, on the address `0.0.0.0:8080`: no retry and no other address
or port. -/
theorem listen_failure_is_fatal (L : String → ListenResult) (err : String)
    (h : L "0.0.0.0:8080" = .returned (some err)) :
    (main L).logged = [err] ∧ (main L).status = .exited 1 ∧
      (main L).listens = ["0.0.0.0:8080"] ∧ (main L).listens.length = 1 := by
  rw [main_eq, h]
  exact ⟨rfl, rfl, rfl, rfl⟩

/-- Witness for claim C4: the port is already bound. -/
theorem listen_failure_is_fatal_witness :
    (main portInUse).logged =
        ["listen tcp 0.0.0.0:8080: bind: address already in use"] ∧
      (main portInUse).status = .exited 1 ∧
      (main portInUse).listens = ["0.0.0.0:8080"] ∧ (main portInUse).listens.length = 1 :=
  listen_failure_is_fatal portInUse "listen tcp 0.0.0.0:8080: bind: address already in use" rfl

/-- Claim C5: when `static/about.html` is absent, a `GET` for `/about` is
answered with status 404, which is not 200, and `aboutPage` returns normally:
the state after the request is the state before it, and every later request is
still answered, exactly as it would have been without this request. -/
theorem missing_about_is_404 (L : String → ListenResult) (fs : FS) (r : Request)
    (rs : List Request) (_hm : r.method = "GET") (hp : r.path = "/about")
    (hf : fs "static/about.html" = .notExist) :
    ServeHTTP (serverWorld L fs) r = aboutPage (serverWorld L fs) r ∧
      (ServeHTTP (serverWorld L fs) r).resp.status = 404 ∧
      (ServeHTTP (serverWorld L fs) r).resp.status ≠ 200 ∧
      (ServeHTTP (serverWorld L fs) r).world = serverWorld L fs ∧
      (serveAll (serverWorld L fs) (r :: rs)).1 =
        (ServeHTTP (serverWorld L fs) r).resp :: (serveAll (serverWorld L fs) rs).1 ∧
      (serveAll (serverWorld L fs) (r :: rs)).1.length = rs.length + 1 := by
  have key : ServeHTTP (serverWorld L fs) r = aboutPage (serverWorld L fs) r := by
    rw [serverWorld_eq]
    unfold ServeHTTP
    simp only [routes_handler, hp]
    rfl
  have hs : (ServeHTTP (serverWorld L fs) r).resp.status = 404 := by
    rw [key]
    unfold aboutPage
    rw [ServeFile_status_404, serverWorld_eq]
    exact hf
  refine ⟨key, hs, ?_, ServeHTTP_world _ _, ?_, ?_⟩
  · rw [hs]; decide
  · simp only [serveAll]
    rw [ServeHTTP_world]
  · rw [serveAll_length]; rfl

/-- Witness for claim C5: without any file, `GET /about` is answered 404 and a
following `GET /contact` is answered too. -/
theorem missing_about_is_404_witness :
    noFiles "static/about.html" = .notExist ∧
      (ServeHTTP (serverWorld listenOk noFiles) (getRequest "/about")).resp.status = 404 ∧
      (serveAll (serverWorld listenOk noFiles)
        [getRequest "/about", getRequest "/contact"]).1.length = 2 :=
  ⟨rfl,
    (missing_about_is_404 listenOk noFiles (getRequest "/about") [getRequest "/contact"]
      rfl rfl rfl).2.1,
    (missing_about_is_404 listenOk noFiles (getRequest "/about") [getRequest "/contact"]
      rfl rfl rfl).2.2.2.2.2⟩

/-- Claim C6: under the documented contract of `http.ListenAndServe` (when it
returns, the error it returns is not nil), `main` never ends with exit code 0,
the fall-through end of `main` is not reached, no registration panics, and
`main` ends, with exit code 1 through `log.Fatal`, exactly when
`ListenAndServe` returned an error; otherwise it keeps serving. -/
theorem main_exit_code (L : String → ListenResult)
    (contract : ∀ addr, L addr ≠ .returned none) :
    (main L).status ≠ .exited 0 ∧
      (∀ code, (main L).status = .exited code → code = 1) ∧
      ((main L).status = .exited 1 ↔ ∃ err, L "0.0.0.0:8080" = .returned (some err)) ∧
      ((main L).status = .serving ↔ L "0.0.0.0:8080" = .serving) ∧
      (∀ msg, (main L).status ≠ .panicked msg) := by
  have hc := contract "0.0.0.0:8080"
  rw [main_eq]
  cases hL : L "0.0.0.0:8080" with
  | serving => simp
  | returned err =>
    cases err with
    | none => exact absurd hL hc
    | some e => simp

/-- Witness for claim C6 at a listener that fails to start: exit code 1, not
0. -/
theorem main_exit_code_witness :
    (∀ addr, portInUse addr ≠ .returned none) ∧ (main portInUse).status ≠ .exited 0 ∧
      (main portInUse).status = .exited 1 :=
  ⟨by simp [portInUse],
    (main_exit_code portInUse (by simp [portInUse])).1,
    (main_exit_code portInUse (by simp [portInUse])).2.2.1.mpr ⟨_, rfl⟩⟩

/-- Claim C7: handling a request changes no state.  In every state and for
every request, `aboutPage` opens exactly one file, `static/about.html`, and
`contactPage` exactly one file, `static/contact.html`, and each leaves the
filesystem and the route table as they were; so does the dispatch of any
request, hence the state after any sequence of requests is the state before it,
and the response to a request is the same whatever requests were handled
before. -/
theorem handlers_change_no_state (w : World) (r : Request) (rs : List Request) :
    (aboutPage w r).reads = ["static/about.html"] ∧ (aboutPage w r).world = w ∧
      (contactPage w r).reads = ["static/contact.html"] ∧ (contactPage w r).world = w ∧
      (ServeHTTP w r).world.fs = w.fs ∧ (ServeHTTP w r).world.mux = w.mux ∧
      (serveAll w rs).2 = w ∧
      (ServeHTTP (serveAll w rs).2 r).resp = (ServeHTTP w r).resp := by
  refine ⟨ServeFile_reads _ _ _, ServeFile_world _ _ _, ServeFile_reads _ _ _,
    ServeFile_world _ _ _, ?_, ?_, serveAll_world _ _, ?_⟩
  · rw [ServeHTTP_world]
  · rw [ServeHTTP_world]
  · rw [serveAll_world]

/-- Claim C8: the registration of the route table is one-time and free of
conflicts.  Each of the three `HandleFunc` calls of `main` succeeds, so no
registration panics; the registered patterns are `/about`, `/contact` and `/`,
pairwise distinct, each bound exactly once; `/about` resolves to `aboutPage`,
`/contact` to `contactPage` and `/` to `aboutPage`; and the table is the same
after any sequence of requests handled by the running server. -/
theorem route_table_registration (L : String → ListenResult) (fs : FS) (host : String)
    (rs : List Request) :
    (∃ m1 m2, HandleFunc DefaultServeMux "/about" Handler.aboutPage = .ok m1 ∧
        HandleFunc m1 "/contact" Handler.contactPage = .ok m2 ∧
        HandleFunc m2 "/" Handler.aboutPage = .ok (main L).mux) ∧
      (∀ msg, (main L).status ≠ .panicked msg) ∧
      (main L).mux.m.map Prod.fst = ["/", "/contact", "/about"] ∧
      ((main L).mux.m.map Prod.fst).Nodup ∧
      (∀ p ∈ ["/about", "/contact", "/"],
        ((main L).mux.m.filter fun kv => kv.1 == p).length = 1) ∧
      (main L).mux.handler host "/about" = (Handler.aboutPage, "/about") ∧
      (main L).mux.handler host "/contact" = (Handler.contactPage, "/contact") ∧
      (main L).mux.handler host "/" = (Handler.aboutPage, "/") ∧
      (serveAll (serverWorld L fs) rs).2.mux = (main L).mux := by
  have hst : ∀ msg, (main L).status ≠ .panicked msg := by
    intro msg
    rw [main_eq]
    cases L "0.0.0.0:8080" with
    | serving => simp
    | returned err => cases err <;> simp
  rw [serveAll_world, serverWorld_eq, main_mux]
  refine ⟨⟨_, _, rfl, rfl, rfl⟩, hst, rfl, by decide, by decide, ?_, ?_, ?_, rfl⟩
  · rw [routes_handler]; rfl
  · rw [routes_handler]; rfl
  · rw [routes_handler]; rfl

/-- Claim C10: the handler and the file chosen for a request depend on its path
alone.  Two requests with the same path, whatever their methods, hosts, headers
and bodies, are dispatched to the same handler, which opens the same file.  No
route is restricted to `GET`: a request of any method for `/about` goes to
`aboutPage` and `static/about.html`, and one for `/contact` to `contactPage` and
`static/contact.html`. -/
theorem file_depends_on_path_only (L : String → ListenResult) (fs : FS) (r1 r2 : Request)
    (h : r1.path = r2.path) :
    (main L).mux.handler r1.host r1.path = (main L).mux.handler r2.host r2.path ∧
      (ServeHTTP (serverWorld L fs) r1).reads = (ServeHTTP (serverWorld L fs) r2).reads ∧
      (r1.path = "/about" →
        ((main L).mux.handler r1.host r1.path).1 = Handler.aboutPage ∧
        (ServeHTTP (serverWorld L fs) r1).reads = ["static/about.html"]) ∧
      (r1.path = "/contact" →
        ((main L).mux.handler r1.host r1.path).1 = Handler.contactPage ∧
        (ServeHTTP (serverWorld L fs) r1).reads = ["static/contact.html"]) := by
  have hh : routes.handler r1.host r1.path = routes.handler r2.host r2.path := by
    rw [routes_handler, routes_handler, h]
  have hr : ∀ (r : Request) (hd : Handler), (hd.ServeHTTP ⟨fs, routes⟩ r).reads =
      (hd.ServeHTTP ⟨fs, routes⟩ r2).reads := by
    intro r hd
    cases hd
    · exact (ServeFile_reads _ r _).trans (ServeFile_reads _ r2 _).symm
    · exact (ServeFile_reads _ r _).trans (ServeFile_reads _ r2 _).symm
    · rfl
  rw [main_mux, serverWorld_eq]
  refine ⟨hh, ?_, ?_, ?_⟩
  · unfold ServeHTTP
    simp only [hh]
    exact hr r1 _
  · intro hp
    unfold ServeHTTP
    simp only [routes_handler, hp]
    exact ⟨rfl, ServeFile_reads _ r1 _⟩
  · intro hp
    unfold ServeHTTP
    simp only [routes_handler, hp]
    exact ⟨rfl, ServeFile_reads _ r1 _⟩

/-- Witness for claim C10: a `POST` with a header and a body for `/about` is
dispatched like the plain `GET` for `/about`, to `aboutPage` and
`static/about.html`. -/
theorem file_depends_on_path_only_witness :
    (postRequest "/about").path = (getRequest "/about").path ∧
      (main listenOk).mux.handler (postRequest "/about").host (postRequest "/about").path =
        (main listenOk).mux.handler (getRequest "/about").host (getRequest "/about").path ∧
      ((main listenOk).mux.handler (postRequest "/about").host
        (postRequest "/about").path).1 = Handler.aboutPage ∧
      (ServeHTTP (serverWorld listenOk aboutOnly) (postRequest "/about")).reads =
        ["static/about.html"] :=
  ⟨rfl,
    (file_depends_on_path_only listenOk aboutOnly (postRequest "/about") (getRequest "/about")
      rfl).1,
    ((file_depends_on_path_only listenOk aboutOnly (postRequest "/about") (getRequest "/about")
      rfl).2.2.1 rfl).1,
    ((file_depends_on_path_only listenOk aboutOnly (postRequest "/about") (getRequest "/about")
      rfl).2.2.1 rfl).2⟩

end StaticServer
